import Mathlib

/-!
Shallow embedding of the LINE webhook service in `src/main.py` (revision
`OpenAI_V312`): the text-message handler `handle_message`, the search
wrapper `search_documents`, the per-user SKU session memory
(`update_sku_code` / `get_last_sku_code` / the `pop` used by the restart
command), and the SKU extraction helper `extract_sku_from_text`.

Python strings are embedded as `List Char`; the two external
collaborators (Azure Cognitive Search and the Azure OpenAI completion
endpoint) are passed in as oracles: the search step as its already
computed outcome (`Except` error text or result list) and the completion
step as a function from the assembled message list to an `Except`
outcome, where `.error` models a raised exception and `.ok none` models
a falsy (`None`) return checked by `if completion`.
-/

namespace LineWebhook

/-- Embedded Python strings: lists of characters. -/
abbrev Str : Type := List Char

def nl : Char := '\n'

def colonChar : Char := ':'

def nlnl : Str := "\n\n".toList

/-- Substring test, Python's `pat in s`. -/
def containsSub (pat : Str) : Str → Bool
  | [] => pat.isEmpty
  | x :: t => pat.isPrefixOf (x :: t) || containsSub pat t

/-- Python `s.split(sep)` for a one-character separator: no collapsing of
empty fields, `"".split(c) = [""]`. -/
def splitOnChar (c : Char) : Str → List Str
  | [] => [[]]
  | x :: xs =>
    if x = c then [] :: splitOnChar c xs
    else
      match splitOnChar c xs with
      | [] => [[x]]
      | h :: t => (x :: h) :: t

/-- Python `sep.join(parts)`. -/
def joinSep (sep : Str) : List Str → Str
  | [] => []
  | [x] => x
  | x :: y :: ys => x ++ sep ++ joinSep sep (y :: ys)

/-- Python `s.strip()`: remove leading and trailing whitespace. -/
def stripChars (s : Str) : Str :=
  ((s.dropWhile Char.isWhitespace).reverse.dropWhile Char.isWhitespace).reverse

/-- Role tag of one chat-completion message. -/
inductive Role : Type
  | system
  | user
  | assistant
deriving DecidableEq, Repr

/-- One role-tagged message unit (a Turn of the spec; one entry of the
`messages` list sent to the completion endpoint). -/
structure Turn : Type where
  role : Role
  content : Str
deriving DecidableEq, Repr

/-- Fixed strings of `src/main.py`, named after their use sites. -/
def restartCommand : Str := "เริ่มการสนทนาใหม่".toList

def resetReply : Str :=
  "รบกวนคุณลูกค้าแจ้งว่าต้องการทราบข้อมูลสินค้า หรือบริการใดเพิ่มเติมค่ะ".toList

def kwProduct : Str := "สินค้า".toList

def kwProblem : Str := "ปัญหา".toList

def kwFix : Str := "แก้ไข".toList

def productFallback : Str :=
  "ไม่พบข้อมูลสินค้า กรุณาลองใหม่ หรือแจ้งชื่อสินค้าพร้อมรหัส".toList

def supportFallback : Str :=
  "ยังไม่มีข้อมูลวิธีแก้ไข กรุณาติดต่อเจ้าหน้าที่ที่ศูนย์บริการลูกค้า".toList

def genericFallback : Str := "ไม่พบข้อมูลที่เกี่ยวข้องค่ะ".toList

def searchErrIntro : Str := "ขออภัย ไม่สามารถเรียกข้อมูลได้ค่ะ: ".toList

def apologyReply : Str :=
  "ขออภัย ระบบมีปัญหาในการเชื่อมต่อกับ Azure OpenAI".toList

def skuContextIntro : Str := "\n\nข้อมูลสินค้า SKU ล่าสุดที่ค้นหา: ".toList

def skuToken : Str := "sku_code".toList

def errorToken : Str := "Error".toList

def productType : Str := "Product".toList

def helpdeskType : Str := "HelpDesk".toList

def unknownType : Str := "Unknown".toList

def noTitleText : Str := "No Title".toList

def noContentText : Str := "No Content".toList

def productMark : Str := "🔹 [สินค้า] ".toList

def helpdeskMark : Str := "❓ [คำถามที่พบบ่อย] ".toList

def indexErrorText : Str := "IndexError: list index out of range".toList

/-- The in-memory `session_memory` dict (user id ↦ last SKU code),
embedded as a finite-support lookup function. -/
def SessionMemory : Type := Str → Option Str

/-- `session_memory[user_id] = sku_code`. -/
def update_sku_code (m : SessionMemory) (uid sku : Str) : SessionMemory :=
  fun k => if k = uid then some sku else m k

/-- `session_memory.pop(user_id, None)`: the state after removing the key. -/
def popSession (m : SessionMemory) (uid : Str) : SessionMemory :=
  fun k => if k = uid then none else m k

/-- `session_memory.get(user_id, None)`. -/
def get_last_sku_code (m : SessionMemory) (uid : Str) : Option Str := m uid

/-- The empty `session_memory = {}`. -/
def emptySessions : SessionMemory := fun _ => none

/-- One Azure Search hit as consumed by `search_documents`: the three
fields are read with `result.get(key, default)`, so each is optional. -/
structure SearchResult : Type where
  document_type : Option Str
  title : Option Str
  chunk : Option Str
deriving DecidableEq, Repr

/-- Rendering of one search hit inside the `for result in results` loop of
`search_documents`. -/
def renderResult (r : SearchResult) : Str :=
  let dt := r.document_type.getD unknownType
  let t := r.title.getD noTitleText
  let ch := r.chunk.getD noContentText
  if dt = productType then productMark ++ t ++ [nl] ++ ch
  else if dt = helpdeskType then helpdeskMark ++ t ++ [nl] ++ ch
  else t ++ [nl] ++ ch

/-- `search_documents(query, top)`: the whole body sits in a
`try/except`, so the collaborator outcome is an `Except`; on exception
`e` the function returns the one-element list with the formatted error
string, on success the rendered documents, or the sentinel list when no
document was returned. -/
def search_documents (outcome : Except Str (List SearchResult)) : List Str :=
  match outcome with
  | .error e => [searchErrIntro ++ e]
  | .ok results =>
    let documents := results.map renderResult
    if documents.isEmpty then [genericFallback] else documents

/-- Loop of `extract_sku_from_text` over the lines: first line containing
`"sku_code"` is split on `":"` and indexed at `[1]`, which raises
`IndexError` when the line has no colon. -/
def extractLoop : List Str → Except Str (Option Str)
  | [] => .ok none
  | line :: rest =>
    if containsSub skuToken line then
      match (splitOnChar colonChar line).get? 1 with
      | some seg => .ok (some (stripChars seg))
      | none => .error indexErrorText
    else extractLoop rest

/-- `extract_sku_from_text(text)`: `.error` models the uncaught
`IndexError`, `.ok none` the `return None` fallthrough. -/
def extract_sku_from_text (text : Str) : Except Str (Option Str) :=
  extractLoop (splitOnChar nl text)

/-- What the loop of `extract_sku_from_text` does with the line it stops
on: index `[1]` of the colon split, or the `IndexError`. -/
def skuLineResult (line : Str) : Except Str (Option Str) :=
  match (splitOnChar colonChar line).get? 1 with
  | some seg => Except.ok (some (stripChars seg))
  | none => Except.error indexErrorText

/-- What `extract_sku_from_text` does as a function of the first line
containing the SKU marker, if any. -/
def skuScanResult (found : Option Str) : Except Str (Option Str) :=
  match found with
  | none => Except.ok none
  | some line => skuLineResult line

/-- First line of the text that contains `"sku_code"`, the line the loop
of `extract_sku_from_text` acts on. -/
def firstSkuLine (text : Str) : Option Str :=
  (splitOnChar nl text).find? (fun l => containsSub skuToken l)

/-- `sku_context = f"..." if last_sku_code else ""`: Python truthiness,
so both `None` and the empty string give the empty suffix. -/
def sku_context (last : Option Str) : Str :=
  match last with
  | some s => if s.isEmpty then [] else skuContextIntro ++ s
  | none => []

/-- The `messages=[...]` list built for `client.chat.completions.create`:
system turn (instruction plus SKU context suffix), user turn (raw
message), assistant turn (grounding text). -/
def assemble (sys : Str) (last : Option Str) (msg grounding : Str) : List Turn :=
  [⟨Role.system, sys ++ sku_context last⟩, ⟨Role.user, msg⟩,
   ⟨Role.assistant, grounding⟩]

/-- The keyword fallback chain of `handle_message` (the
`if "สินค้า" in user_message ... elif ... else ...` block). -/
def fallback_grounding (msg : Str) : Str :=
  if containsSub kwProduct msg then productFallback
  else if containsSub kwProblem msg || containsSub kwFix msg then supportFallback
  else genericFallback

/-- Observable outcome of one `handle_message` run: final session state,
whether `search_documents` and the completion call were reached, the
message list passed to the completion call (when reached), and either
the text handed to `line_bot_api.reply_message` (`.ok`) or an uncaught
exception that aborts the handler before any reply (`.error`). -/
structure HandleResult : Type where
  sessions : SessionMemory
  searchCalled : Bool
  completionCalled : Bool
  completionMessages : Option (List Turn)
  outcome : Except Str Str

/-- Tail of the non-restart path of `handle_message` from the
`last_sku_code` read onward: assemble the messages, call the completion
oracle (`.error` = raised exception, propagated uncaught; `.ok none` =
falsy response object, replaced by the fixed apology; `.ok (some t)` =
normal reply text). -/
def finishCompletion (sys : Str) (state : SessionMemory) (uid msg grounding : Str)
    (co : List Turn → Except Str (Option Str)) : HandleResult :=
  let msgs := assemble sys (get_last_sku_code state uid) msg grounding
  match co msgs with
  | .error e =>
    { sessions := state, searchCalled := true, completionCalled := true,
      completionMessages := some msgs, outcome := .error e }
  | .ok c =>
    { sessions := state, searchCalled := true, completionCalled := true,
      completionMessages := some msgs,
      outcome := .ok (match c with | some t => t | none => apologyReply) }

/-- `handle_message(event)` for a text message: `sys` is the loaded
`system_message`, `state` the current `session_memory`, `uid` and `msg`
the sender id and text, `so` the search collaborator's outcome for this
query and `co` the completion collaborator. -/
def handle_message (sys : Str) (state : SessionMemory) (uid msg : Str)
    (so : Except Str (List SearchResult))
    (co : List Turn → Except Str (Option Str)) : HandleResult :=
  if msg = restartCommand then
    { sessions := popSession state uid, searchCalled := false,
      completionCalled := false, completionMessages := none,
      outcome := .ok resetReply }
  else
    let search_results := search_documents so
    let errCase :=
      match search_results with
      | [] => true
      | h :: _ => containsSub errorToken h
    if errCase then
      finishCompletion sys state uid msg (fallback_grounding msg) co
    else
      let grounding := joinSep nlnl search_results
      match extract_sku_from_text grounding with
      | .error e =>
        { sessions := state, searchCalled := true, completionCalled := false,
          completionMessages := none, outcome := .error e }
      | .ok skuOpt =>
        let state' :=
          match skuOpt with
          | some sku => if sku.isEmpty then state else update_sku_code state uid sku
          | none => state
        finishCompletion sys state' uid msg grounding co

/-- Modelled from the spec: the observed history capacity K. -/
def sessionCapacity : Nat := 5

/-- Modelled from the spec: the bounded-history Session Store (capacity
K = 5, strict FIFO eviction of the oldest turn) that the spec describes
for the session-memory revisions of this repository; the `src/main.py`
snapshot here keeps only the scalar last-SKU store, so the
history-append operation itself is not in `src/` and is taken from the
spec's words: append one turn, evicting the oldest first once the
capacity is reached. -/
def appendTurn (history : List Turn) (t : Turn) : List Turn :=
  if sessionCapacity ≤ history.length then history.tail ++ [t]
  else history ++ [t]

/-! Concrete fixtures used to evaluate the embedding on explicit inputs. -/

def sysText : Str := "SYS".toList

def uidText : Str := "U1".toList

def helloText : Str := "hello".toList

def timeoutText : Str := "timeout".toList

def connResetText : Str := "connection reset".toList

def widgetTitle : Str := "Widget".toList

def widgetChunk : Str := "desc".toList

def faqTitle : Str := "How to reset".toList

def faqChunk : Str := "Press the button".toList

def otherType : Str := "Manual".toList

def productQuery : Str := "สินค้า ABC".toList

def supportQuery : Str := "ปัญหา X".toList

def httpErrText : Str := "HttpError 503".toList

def skuSample : Str := "name: x\nsku_code: AB-12 : rest\nmore".toList

def skuSampleLine : Str := "sku_code: AB-12 : rest".toList

def skuResultText : Str := "AB-12".toList

def noColonSample : Str := "a\nsku_code here\nb".toList

def noColonLine : Str := "sku_code here".toList

def noSkuSample : Str := "hello\nworld".toList

def oneProductResult : SearchResult :=
  ⟨some productType, some widgetTitle, some widgetChunk⟩

def oneHelpdeskResult : SearchResult :=
  ⟨some helpdeskType, some faqTitle, some faqChunk⟩

def oneOtherResult : SearchResult :=
  ⟨some otherType, some widgetTitle, some widgetChunk⟩

/-- Completion oracle that echoes the content of the assistant turn of the
prompt (index 2), a plausible behavior for a model told to use its
grounding context. -/
def echoCompletion : List Turn → Except Str (Option Str) :=
  fun msgs => .ok (some ((msgs.getD 2 ⟨Role.user, []⟩).content))

/-- Completion oracle that raises (models a transport or service error in
`client.chat.completions.create`). -/
def raisingCompletion : List Turn → Except Str (Option Str) :=
  fun _ => .error connResetText

/-- Completion oracle that returns a fixed normal reply. -/
def fixedCompletion : List Turn → Except Str (Option Str) :=
  fun _ => .ok (some helloText)

def mkTurn (c : Char) : Turn := ⟨Role.user, [c]⟩

def sixTurns : List Turn :=
  [mkTurn 'a', mkTurn 'b', mkTurn 'c', mkTurn 'd', mkTurn 'e', mkTurn 'f']

def widgetGrounding : Str := renderResult oneProductResult

def threeResults : List SearchResult :=
  [oneProductResult, oneHelpdeskResult, oneOtherResult]

/-! Helper lemmas. -/

lemma finishCompletion_messages (sys : Str) (st : SessionMemory) (uid msg g : Str)
    (co : List Turn → Except Str (Option Str)) :
    (finishCompletion sys st uid msg g co).completionMessages
      = some (assemble sys (get_last_sku_code st uid) msg g) := by
  cases h : co (assemble sys (get_last_sku_code st uid) msg g) <;>
    simp [finishCompletion, h]

lemma finishCompletion_outcome_error (sys : Str) (st : SessionMemory) (uid msg g : Str)
    (co : List Turn → Except Str (Option Str)) (e : Str)
    (h : co (assemble sys (get_last_sku_code st uid) msg g) = .error e) :
    (finishCompletion sys st uid msg g co).outcome = .error e := by
  simp [finishCompletion, h]

lemma splitOnChar_ne_nil (c : Char) (s : Str) : splitOnChar c s ≠ [] := by
  induction s with
  | nil => simp [splitOnChar]
  | cons x xs ih =>
    by_cases h : x = c
    · simp [splitOnChar, h]
    · simp only [splitOnChar, if_neg h]
      cases hs : splitOnChar c xs with
      | nil => simp
      | cons a t => simp

lemma splitOnChar_head? (c : Char) (s : Str) :
    (splitOnChar c s).head? = some (s.takeWhile (· != c)) := by
  induction s with
  | nil => simp [splitOnChar]
  | cons x xs ih =>
    by_cases h : x = c
    · simp [splitOnChar, h, List.takeWhile]
    · simp only [splitOnChar, if_neg h]
      cases hs : splitOnChar c xs with
      | nil => exact absurd hs (splitOnChar_ne_nil c xs)
      | cons a t =>
        rw [hs] at ih
        simp only [List.head?] at ih
        have hb : (x != c) = true := bne_iff_ne.mpr h
        simp [List.takeWhile_cons, hb, Option.some.inj ih]

lemma splitOnChar_of_not_mem (c : Char) (s : Str) (h : c ∉ s) :
    splitOnChar c s = [s] := by
  induction s with
  | nil => simp [splitOnChar]
  | cons x xs ih =>
    have hx : ¬x = c := fun hxc => h (hxc ▸ List.mem_cons_self x xs)
    have hxs : c ∉ xs := fun hm => h (List.mem_cons_of_mem x hm)
    simp only [splitOnChar, if_neg hx, ih hxs]

lemma splitOnChar_get?_one (c : Char) (s : Str) (h : c ∈ s) :
    (splitOnChar c s)[1]?
      = some (((s.dropWhile (· != c)).tail).takeWhile (· != c)) := by
  induction s with
  | nil => exact absurd h (List.not_mem_nil c)
  | cons x xs ih =>
    by_cases hx : x = c
    · subst hx
      simp only [splitOnChar, if_pos rfl]
      have hd : (x :: xs).dropWhile (· != x) = x :: xs := by
        simp [List.dropWhile]
      rw [hd]
      have hh := splitOnChar_head? x xs
      cases hs : splitOnChar x xs with
      | nil => exact absurd hs (splitOnChar_ne_nil x xs)
      | cons a t =>
        rw [hs] at hh
        simp only [List.head?] at hh
        simp [Option.some.inj hh]
    · have hmem : c ∈ xs := by
        rcases List.mem_cons.mp h with h1 | h2
        · exact absurd h1.symm hx
        · exact h2
      simp only [splitOnChar, if_neg hx]
      cases hs : splitOnChar c xs with
      | nil => exact absurd hs (splitOnChar_ne_nil c xs)
      | cons a t =>
        have := ih hmem
        rw [hs] at this
        have hb : (x != c) = true := bne_iff_ne.mpr hx
        have hd : (x :: xs).dropWhile (· != c) = xs.dropWhile (· != c) := by
          simp [List.dropWhile_cons, hb]
        rw [hd]
        simpa using this

lemma extractLoop_find (lines : List Str) :
    extractLoop lines
      = skuScanResult (lines.find? (fun l => containsSub skuToken l)) := by
  induction lines with
  | nil => simp [extractLoop, List.find?, skuScanResult]
  | cons l rest ih =>
    by_cases h : containsSub skuToken l = true
    · simp [extractLoop, List.find?, h, skuScanResult, skuLineResult]
    · simp only [extractLoop, List.find?, h, if_neg]
      simpa [Bool.not_eq_true] using ih

lemma appendTurn_reverse (h : List Turn) (t : Turn) (hh : h.length ≤ sessionCapacity) :
    (appendTurn h t).reverse = (t :: h.reverse).take sessionCapacity := by
  unfold appendTurn
  by_cases hc : sessionCapacity ≤ h.length
  · rw [if_pos hc]
    have hlen : h.length = sessionCapacity := le_antisymm hh hc
    have h2 : h.tail.reverse = h.reverse.dropLast := by
      have h3 := List.tail_reverse_eq_reverse_dropLast h.reverse
      rw [List.reverse_reverse] at h3
      rw [h3, List.reverse_reverse]
    obtain ⟨K, hK⟩ : ∃ n, sessionCapacity = n + 1 := ⟨4, rfl⟩
    rw [List.reverse_append, hK, List.take_succ_cons]
    have h4 : ([t] : List Turn).reverse = [t] := rfl
    rw [h4, List.singleton_append, h2, List.dropLast_eq_take, List.length_reverse,
      hlen, hK, Nat.add_sub_cancel]
  · rw [if_neg hc, List.reverse_append]
    have hlt : (t :: h.reverse).length ≤ sessionCapacity := by
      simp only [List.length_cons, List.length_reverse]
      exact Nat.succ_le_of_lt (lt_of_not_le hc)
    rw [List.take_of_length_le hlt]
    rfl

lemma appendTurn_length_le (h : List Turn) (t : Turn)
    (hh : h.length ≤ sessionCapacity) :
    (appendTurn h t).length ≤ sessionCapacity := by
  have h1 := congrArg List.length (appendTurn_reverse h t hh)
  rw [List.length_reverse, List.length_take] at h1
  rw [h1]
  exact inf_le_left

lemma foldl_appendTurn_reverse (ts : List Turn) : ∀ h : List Turn,
    h.length ≤ sessionCapacity →
    (ts.foldl appendTurn h).reverse
      = (ts.reverse ++ h.reverse).take sessionCapacity := by
  induction ts with
  | nil =>
    intro h hh
    have : h.reverse.length ≤ sessionCapacity := by
      rw [List.length_reverse]; exact hh
    simp [List.take_of_length_le this]
  | cons t ts' ih =>
    intro h hh
    simp only [List.foldl_cons]
    rw [ih (appendTurn h t) (appendTurn_length_le h t hh),
      appendTurn_reverse h t hh, List.reverse_cons, List.append_assoc,
      List.singleton_append, List.take_append_eq_append_take,
      List.take_append_eq_append_take, List.take_take]
    congr 1
    rw [inf_eq_left.mpr (Nat.sub_le _ _)]

/-! Claim theorems. -/

/-- Claim C1 (code bug): on a search failure whose exception text lacks
the substring checked by the handler, the raw formatted error string
becomes the grounding and — with a completion that echoes its grounding
context — the text sent back to the user contains the collaborator's raw
error text and is none of the user-safe fallback strings. Evaluated at
the failing input: message `hello`, search raising with text `timeout`. -/
theorem c1_raw_search_error_reaches_user :
    (handle_message sysText emptySessions uidText helloText
        (Except.error timeoutText) echoCompletion).outcome
      = Except.ok (searchErrIntro ++ timeoutText) ∧
    containsSub timeoutText (searchErrIntro ++ timeoutText) = true ∧
    containsSub errorToken (searchErrIntro ++ timeoutText) = false ∧
    searchErrIntro ++ timeoutText ≠ productFallback ∧
    searchErrIntro ++ timeoutText ≠ supportFallback ∧
    searchErrIntro ++ timeoutText ≠ genericFallback :=
  ⟨rfl, by decide, by decide, by decide, by decide, by decide⟩

/-- Claim C2 (code bug): when the completion collaborator raises, the
exception propagates out of `handle_message` uncaught, so no outbound
reply is produced at all — in particular the fixed apology string is
never sent. Evaluated at the failing input: message `hello` with one
search hit and a raising completion call. -/
theorem c2_completion_failure_sends_no_reply :
    (handle_message sysText emptySessions uidText helloText
        (Except.ok [oneProductResult]) raisingCompletion).outcome
      = Except.error connResetText ∧
    ∀ t : Str, (handle_message sysText emptySessions uidText helloText
        (Except.ok [oneProductResult]) raisingCompletion).outcome
      ≠ Except.ok t := by
  have h0 : (handle_message sysText emptySessions uidText helloText
      (Except.ok [oneProductResult]) raisingCompletion).outcome
      = Except.error connResetText := rfl
  refine ⟨h0, ?_⟩
  intro t h
  rw [h0] at h
  exact Except.noConfusion h

/-- Claim C3: an inbound message equal to the reserved restart command
removes the sender's session entry, calls neither the search step nor
the completion step, and replies with the fixed prompt-for-more-detail
string. -/
theorem c3_restart_clears_session_and_replies_fixed (sys : Str)
    (state : SessionMemory) (uid : Str) (so : Except Str (List SearchResult))
    (co : List Turn → Except Str (Option Str)) :
    handle_message sys state uid restartCommand so co =
      { sessions := popSession state uid, searchCalled := false,
        completionCalled := false, completionMessages := none,
        outcome := Except.ok resetReply } ∧
    get_last_sku_code
      (handle_message sys state uid restartCommand so co).sessions uid = none := by
  constructor
  · simp [handle_message]
  · simp [handle_message, get_last_sku_code, popSession]

/-- Claim C4: over any sequence of appended turns, the bounded session
history (capacity K = 5, modelled from the spec) never exceeds K turns
and, once more than K turns have been appended, holds exactly the K most
recent turns in original chronological order. -/
theorem c4_history_bounded_fifo (ts : List Turn) :
    (ts.foldl appendTurn []).length ≤ sessionCapacity ∧
    ts.foldl appendTurn [] = (ts.reverse.take sessionCapacity).reverse ∧
    (sessionCapacity ≤ ts.length →
      ts.foldl appendTurn [] = ts.drop (ts.length - sessionCapacity)) := by
  have h0 := foldl_appendTurn_reverse ts [] (by simp [sessionCapacity])
  simp only [List.reverse_nil, List.append_nil] at h0
  have heq : ts.foldl appendTurn [] = (ts.reverse.take sessionCapacity).reverse := by
    rw [← h0, List.reverse_reverse]
  refine ⟨?_, heq, ?_⟩
  · rw [heq, List.length_reverse, List.length_take]
    exact inf_le_left
  · intro _
    rw [heq, ← List.rtake_eq_reverse_take_reverse]
    simp [List.rtake]

/-- Witness for C4: six appended turns with capacity five leave exactly
the last five turns. -/
theorem c4_history_bounded_fifo_witness :
    sessionCapacity ≤ sixTurns.length ∧
    sixTurns.foldl appendTurn []
      = sixTurns.drop (sixTurns.length - sessionCapacity) :=
  ⟨by decide, (c4_history_bounded_fifo sixTurns).2.2 (by decide)⟩

/-- Claim C5, counterexample: a query containing the product keyword for
which the search step returns zero results resolves to the generic
fallback grounding, not to the keyword table's product entry. -/
theorem c5_zero_results_bypass_keyword_table :
    containsSub kwProduct productQuery = true ∧
    (handle_message sysText emptySessions uidText productQuery (Except.ok [])
        fixedCompletion).completionMessages
      = some (assemble sysText none productQuery genericFallback) ∧
    genericFallback ≠ productFallback :=
  ⟨by decide, rfl, by decide⟩

/-- Claim C5 as amended: the keyword table (product keyword first, then
the two support keywords, else the generic string) is applied exactly
when the search step fails with an error whose formatted text contains
the checked substring; a zero-result search always resolves to the
generic fallback regardless of keywords. -/
theorem c5_fallback_selection_amended (sys : Str) (state : SessionMemory)
    (uid msg e : Str) (co co2 : List Turn → Except Str (Option Str))
    (hmsg : ¬msg = restartCommand)
    (herr : containsSub errorToken (searchErrIntro ++ e) = true) :
    (handle_message sys state uid msg (Except.error e) co).completionMessages
      = some (assemble sys (get_last_sku_code state uid) msg
          (fallback_grounding msg)) ∧
    fallback_grounding msg =
      (if containsSub kwProduct msg then productFallback
       else if containsSub kwProblem msg || containsSub kwFix msg then
         supportFallback
       else genericFallback) ∧
    (handle_message sys state uid msg (Except.ok []) co2).completionMessages
      = some (assemble sys (get_last_sku_code state uid) msg genericFallback) := by
  refine ⟨?_, rfl, ?_⟩
  · unfold handle_message
    rw [if_neg hmsg]
    simp only [search_documents, herr, if_pos]
    exact finishCompletion_messages sys state uid msg (fallback_grounding msg) co
  · unfold handle_message
    rw [if_neg hmsg]
    have hz : search_documents (Except.ok ([] : List SearchResult))
        = [genericFallback] := rfl
    have hng : containsSub errorToken genericFallback = false := by decide
    have hex : extract_sku_from_text (joinSep nlnl [genericFallback])
        = Except.ok none := rfl
    simp only [hz, hng, Bool.false_eq_true, if_false, hex]
    exact finishCompletion_messages sys state uid msg
      (joinSep nlnl [genericFallback]) co2

/-- Witness for the amended C5: a support-keyword query with a search
error containing the checked substring resolves to the support entry. -/
theorem c5_fallback_selection_amended_witness :
    (handle_message sysText emptySessions uidText supportQuery
        (Except.error httpErrText) fixedCompletion).completionMessages
      = some (assemble sysText none supportQuery (fallback_grounding supportQuery)) ∧
    fallback_grounding supportQuery = supportFallback :=
  ⟨(c5_fallback_selection_amended sysText emptySessions uidText supportQuery
      httpErrText fixedCompletion fixedCompletion (by decide) (by decide)).1,
   by decide⟩

/-- Claim C6: whenever the non-restart path reaches the completion call,
the message list it passes has exactly the fixed shape: one system turn
(instruction plus the optional topic-hint suffix), then the user turn
with the raw inbound message, then the assistant turn with the grounding
text — three turns, none dropped. -/
theorem c6_prompt_assembly_order (sys : Str) (state : SessionMemory)
    (uid msg : Str) (so : Except Str (List SearchResult))
    (co : List Turn → Except Str (Option Str)) (msgs : List Turn)
    (hmsg : ¬msg = restartCommand)
    (hc : (handle_message sys state uid msg so co).completionMessages
      = some msgs) :
    ∃ last g, msgs =
      [⟨Role.system, sys ++ sku_context last⟩, ⟨Role.user, msg⟩,
       ⟨Role.assistant, g⟩] := by
  unfold handle_message at hc
  rw [if_neg hmsg] at hc
  simp only [] at hc
  split at hc
  · rw [finishCompletion_messages] at hc
    exact ⟨_, _, (Option.some.inj hc).symm⟩
  · split at hc
    · exact absurd hc (by simp)
    · rw [finishCompletion_messages] at hc
      exact ⟨_, _, (Option.some.inj hc).symm⟩

/-- Witness for C6: a concrete non-restart run whose completion prompt
is evaluated explicitly. -/
theorem c6_prompt_assembly_order_witness :
    ∃ last g,
      assemble sysText none helloText widgetGrounding =
        [⟨Role.system, sysText ++ sku_context last⟩, ⟨Role.user, helloText⟩,
         ⟨Role.assistant, g⟩] :=
  c6_prompt_assembly_order sysText emptySessions uidText helloText
    (Except.ok [oneProductResult]) fixedCompletion
    (assemble sysText none helloText widgetGrounding) (by decide) rfl

/-- Claim C7: removing a session entry and then reading it yields no
topic hint; removal is idempotent, and removing a never-created id
leaves the store unchanged (and never fails, being a total operation). -/
theorem c7_reset_idempotent_and_empty (m : SessionMemory) (uid : Str) :
    get_last_sku_code (popSession m uid) uid = none ∧
    popSession (popSession m uid) uid = popSession m uid ∧
    (get_last_sku_code m uid = none → popSession m uid = m) := by
  refine ⟨by simp [get_last_sku_code, popSession], ?_, ?_⟩
  · funext k
    by_cases h : k = uid <;> simp [popSession, h]
  · intro h0
    simp only [get_last_sku_code] at h0
    funext k
    by_cases h : k = uid <;> simp [popSession, h, h0]

/-- Witness for C7: resetting a never-created id in the empty store. -/
theorem c7_reset_idempotent_and_empty_witness :
    get_last_sku_code (popSession emptySessions uidText) uidText = none ∧
    popSession emptySessions uidText = emptySessions :=
  ⟨(c7_reset_idempotent_and_empty emptySessions uidText).1,
   (c7_reset_idempotent_and_empty emptySessions uidText).2.2 rfl⟩

/-- Claim C8: a non-empty search result list is rendered hit-by-hit in
the collaborator's order, each hit as category prefix (product mark for
`Product`, help-desk mark for `HelpDesk`, none otherwise) followed by
title, newline, content. -/
theorem c8_result_rendering (results : List SearchResult) (hne : results ≠ []) :
    search_documents (Except.ok results) = results.map renderResult ∧
    (∀ i : Nat, (search_documents (Except.ok results))[i]?
        = (results[i]?).map renderResult) ∧
    (∀ r : SearchResult, r.document_type.getD unknownType = productType →
        renderResult r = productMark ++ r.title.getD noTitleText ++ [nl]
          ++ r.chunk.getD noContentText) ∧
    (∀ r : SearchResult, r.document_type.getD unknownType = helpdeskType →
        renderResult r = helpdeskMark ++ r.title.getD noTitleText ++ [nl]
          ++ r.chunk.getD noContentText) ∧
    (∀ r : SearchResult, ¬r.document_type.getD unknownType = productType →
        ¬r.document_type.getD unknownType = helpdeskType →
        renderResult r = r.title.getD noTitleText ++ [nl]
          ++ r.chunk.getD noContentText) := by
  have hmap : search_documents (Except.ok results) = results.map renderResult := by
    simp [search_documents, List.isEmpty_iff, hne]
  have hph : ¬helpdeskType = productType := by decide
  refine ⟨hmap, ?_, ?_, ?_, ?_⟩
  · intro i
    rw [hmap, List.getElem?_map]
  · intro r h
    simp [renderResult, h]
  · intro r h
    simp [renderResult, h, hph]
  · intro r h1 h2
    simp [renderResult, h1, h2]

/-- Witness for C8: three concrete hits, one per category kind. -/
theorem c8_result_rendering_witness :
    threeResults ≠ [] ∧
    search_documents (Except.ok threeResults)
      = [renderResult oneProductResult, renderResult oneHelpdeskResult,
         renderResult oneOtherResult] :=
  ⟨by decide, (c8_result_rendering threeResults (by decide)).1⟩

/-- Claim C9: prompt assembly is a pure, deterministic function —
identical system instruction, topic hint, user message and grounding
text yield identical assembled message lists. -/
theorem c9_assembly_deterministic (sys1 sys2 : Str) (last1 last2 : Option Str)
    (msg1 msg2 g1 g2 : Str) (hs : sys1 = sys2) (hl : last1 = last2)
    (hm : msg1 = msg2) (hg : g1 = g2) :
    assemble sys1 last1 msg1 g1 = assemble sys2 last2 msg2 g2 := by
  rw [hs, hl, hm, hg]

/-- Witness for C9: two syntactically identical assemblies coincide. -/
theorem c9_assembly_deterministic_witness :
    assemble sysText none helloText genericFallback
      = assemble sysText none helloText genericFallback :=
  c9_assembly_deterministic sysText sysText none none helloText helloText
    genericFallback genericFallback rfl rfl rfl rfl

/-- Claim C10: `extract_sku_from_text` returns `None` when no line
contains the SKU marker; when the first marker line has a colon it
returns the stripped segment between the first colon and the next colon
or end of line; when the first marker line has no colon the call raises
`IndexError` instead of returning. -/
theorem c10_extract_sku_partiality (text : Str) :
    ((∀ line ∈ splitOnChar nl text, containsSub skuToken line = false) →
        extract_sku_from_text text = Except.ok none) ∧
    (∀ line, firstSkuLine text = some line → colonChar ∈ line →
        extract_sku_from_text text = Except.ok (some (stripChars
          (((line.dropWhile (· != colonChar)).tail).takeWhile
            (· != colonChar))))) ∧
    (∀ line, firstSkuLine text = some line → colonChar ∉ line →
        extract_sku_from_text text = Except.error indexErrorText) := by
  refine ⟨?_, ?_, ?_⟩
  · intro hnone
    have hf : (splitOnChar nl text).find? (fun l => containsSub skuToken l)
        = none :=
      List.find?_eq_none.mpr (fun x hx => by simp [hnone x hx])
    unfold extract_sku_from_text
    rw [extractLoop_find, hf]
    rfl
  · intro line hfind hcolon
    unfold firstSkuLine at hfind
    unfold extract_sku_from_text
    rw [extractLoop_find, hfind]
    simp [skuScanResult, skuLineResult,
      splitOnChar_get?_one colonChar line hcolon]
  · intro line hfind hcolon
    unfold firstSkuLine at hfind
    unfold extract_sku_from_text
    rw [extractLoop_find, hfind]
    simp [skuScanResult, skuLineResult,
      splitOnChar_of_not_mem colonChar line hcolon]

/-- Witness for C10: all three behaviors on explicit texts — extraction
between the colons, the `IndexError` on a colonless marker line, and the
`None` fallthrough. -/
theorem c10_extract_sku_partiality_witness :
    firstSkuLine skuSample = some skuSampleLine ∧
    colonChar ∈ skuSampleLine ∧
    extract_sku_from_text skuSample = Except.ok (some skuResultText) ∧
    firstSkuLine noColonSample = some noColonLine ∧
    colonChar ∉ noColonLine ∧
    extract_sku_from_text noColonSample = Except.error indexErrorText ∧
    extract_sku_from_text noSkuSample = Except.ok none :=
  ⟨by decide, by decide,
   (c10_extract_sku_partiality skuSample).2.1 skuSampleLine (by decide)
     (by decide),
   by decide, by decide,
   (c10_extract_sku_partiality noColonSample).2.2 noColonLine (by decide)
     (by decide),
   (c10_extract_sku_partiality noSkuSample).1 (by decide)⟩

end LineWebhook
